import Mathlib

/-!
# Oscillator module of the synthesis engine

A shallow embedding of `Source/vital/synthesis/modules/oscillator_module.cpp`:
the constructor, the graph construction `OscillatorModule::init` and the gated
block step `OscillatorModule::process`.

The module graph is built once by `init` (controls, wiring, child processors)
and then executed block by block by `process`.  Audio samples are kept
abstract (any type with a zero and a multiplication); declared control ranges
are rational numbers.
-/

namespace vital

/-! ## Data model -/

/-- Scaling curves that a control declaration may name. -/
inductive ValueScale where
  | kLinear
  | kQuadratic
  | kIndexed
  deriving DecidableEq, Repr

/-- Input ports of the oscillator module that `init` refers to. -/
inductive ModuleInput where
  | kReset
  | kRetrigger
  | kMidi
  | kActiveVoices
  deriving DecidableEq, Repr

/-- Output ports of the oscillator module. -/
inductive ModuleOutput where
  | kRaw
  | kLevelled
  deriving DecidableEq, Repr

/-- The child processors that `init` allocates: `oscillator_` (a
`SynthOscillator`), `envelope` (an `EnvelopeModule`) and `env` (a `Multiply`). -/
inductive Proc where
  | SynthOscillator
  | EnvelopeModule
  | Multiply
  deriving DecidableEq, Repr

/-- Input slots of `SynthOscillator` named by `init`. -/
inductive OscInput where
  | kReset
  | kRetrigger
  | kActiveVoices
  | kMidiNote
  | kWaveFrame
  | kMidiTrack
  | kSmoothlyInterpolate
  | kSpectralUnison
  | kTransposeQuantize
  | kTranspose
  | kTune
  | kStackStyle
  | kUnisonDetune
  | kUnisonVoices
  | kPhase
  | kDistortionPhase
  | kRandomPhase
  | kBlend
  | kAmplitude
  | kPan
  | kDetunePower
  | kDetuneRange
  | kStereoSpread
  | kUnisonFrameSpread
  | kUnisonDistortionSpread
  | kDistortionType
  | kDistortionAmount
  | kUnisonSpectralMorphSpread
  | kSpectralMorphType
  | kSpectralMorphAmount
  deriving DecidableEq, Repr

/-- An input slot of a child processor: a named `SynthOscillator` slot, the
`EnvelopeModule::kTrigger` slot, or a numeric slot index. -/
inductive Slot where
  | osc (i : OscInput)
  | kTrigger
  | index (i : Nat)
  deriving DecidableEq, Repr

/-- An output object (something that holds a buffer or a polled value). -/
inductive Output where
  /-- An output port owned by the module itself, `output(k)`. -/
  | module (k : ModuleOutput)
  /-- Output number `index` allocated by the child processor `p` itself. -/
  | own (p : Proc) (index : Nat)
  /-- The handle returned by a control declaration with the given name. -/
  | control (name : String)
  /-- The upstream output behind a module input, `input(k)->source`. -/
  | inputSource (k : ModuleInput)
  deriving DecidableEq, Repr

/-- The options of one control declaration, as written in the initializer
list; an option that is not written is `none` (or `false`). -/
structure ControlSpec where
  name : String
  audio_rate : Bool := false
  smooth_value : Bool := false
  reset : Option ModuleInput := none
  min : Option ℚ := none
  max : Option ℚ := none
  value_scale : Option ValueScale := none
  default_value : Option ℚ := none

/-- Which of the two declaration functions created a control. -/
inductive ControlKind where
  | base
  | polyMod
  deriving DecidableEq, Repr

/-- Construction-time failures. -/
inductive ConfigurationError where
  | DuplicateNameError (name : String)
  deriving DecidableEq, Repr

/-- The module graph under construction. -/
structure SynthModule where
  /-- Declared controls, in declaration order. -/
  controls : List (ControlKind × ControlSpec) := []
  /-- Child processors in insertion (execution) order. -/
  processors : List Proc := []
  /-- Every `plug` call, oldest first: child, input slot, upstream output. -/
  plugs : List (Proc × Slot × Output) := []
  /-- Every `useInput` call: child, input slot, aliased module input. -/
  usedInputs : List (Proc × Slot × ModuleInput) := []
  /-- Every `useOutput` call: child, output index, module output it writes. -/
  usedOutputs : List (Proc × Nat × ModuleOutput) := []
  /-- The member `on_`. -/
  on_ : Option Output := none
  /-- The member `distortion_type_`. -/
  distortion_type_ : Option Output := none

/-- Graph construction runs over the module and may fail. -/
abbrev Build := StateT SynthModule (Except ConfigurationError)

/-! ## Graph-construction primitives -/

/-- Modelled from the spec: the name registry behind `createBaseControl2` and
`createPolyModControl2` (section 4.1: a control is registered by name, and a
name that is not unique is a construction-time `DuplicateNameError`). -/
def registerControl (kind : ControlKind) (spec : ControlSpec) : Build Output := do
  let m ← get
  if m.controls.any (fun c => c.2.name == spec.name) then
    throw (ConfigurationError.DuplicateNameError spec.name)
  set { m with controls := m.controls ++ [(kind, spec)] }
  return Output.control spec.name

/-- Declaration of a base control; returns its handle. -/
def createBaseControl2 (spec : ControlSpec) : Build Output :=
  registerControl ControlKind.base spec

/-- Declaration of a polyphonically modulatable control; returns its handle. -/
def createPolyModControl2 (spec : ControlSpec) : Build Output :=
  registerControl ControlKind.polyMod spec

/-- Modelled from the spec: `plug` (section 4.2) records the upstream output
for an input slot of a child; a later plug of the same slot replaces it. -/
def plug (p : Proc) (source : Output) (slot : Slot) : Build Unit :=
  modify fun m => { m with plugs := m.plugs ++ [(p, slot, source)] }

/-- Modelled from the spec: `useInput` (section 4.2) aliases a module input
as an input slot of a child. -/
def useInput (p : Proc) (input : ModuleInput) (slot : Slot) : Build Unit :=
  modify fun m => { m with usedInputs := m.usedInputs ++ [(p, slot, input)] }

/-- Modelled from the spec: `useOutput` makes output number `index` of a child
be the given output of the module (the re-exposed port of section 4.3). -/
def useOutput (p : Proc) (output : ModuleOutput) (index : Nat) : Build Unit :=
  modify fun m => { m with usedOutputs := m.usedOutputs ++ [(p, index, output)] }

/-- Modelled from the spec: `addProcessor` (section 4.3) appends the child to
the execution order. -/
def addProcessor (p : Proc) : Build Unit :=
  modify fun m => { m with processors := m.processors ++ [p] }

/-- The output object currently standing at output number `index` of child
`p`: the module output bound there by `useOutput`, else the child's own. -/
def outputOf (m : SynthModule) (p : Proc) (index : Nat) : Output :=
  match m.usedOutputs.reverse.find? (fun u => u.1 == p && u.2.1 == index) with
  | some u => Output.module u.2.2
  | none => Output.own p index

/-- The upstream output wired to an input slot of child `p`, if any: the last
`plug` of that slot wins. -/
def sourceOf (m : SynthModule) (p : Proc) (slot : Slot) : Option Output :=
  (m.plugs.reverse.find? (fun w => w.1 == p && w.2.1 == slot)).map (fun w => w.2.2)

/-- The default output `p->output()` of a child, as seen at this point of the
construction. -/
def defaultOutput (p : Proc) : Build Output := do
  return outputOf (← get) p 0

/-- Modelled from the spec: the base-class `SynthModule::init`, whose code is
not part of the module file; the spec gives it no effect on the controls, the
children or the wiring. -/
def SynthModule.init : Build Unit :=
  pure ()

/-! ## `OscillatorModule::init` -/

namespace OscillatorModule

/-- The module as the constructor leaves it: no controls, no children, `on_`
and `distortion_type_` null. -/
def fresh : SynthModule := {}

/-- Graph construction, statement by statement. -/
def init : Build Unit := do
  let oscillator_ := Proc.SynthOscillator
  let _ ← createBaseControl2 { name := "view_2d" }
  let on_ ← createBaseControl2 { name := "on" }
  modify fun m => { m with on_ := some on_ }
  let midi_track ← createBaseControl2
    { name := "midi_track", value_scale := some .kIndexed, default_value := some 1.0 }
  let smooth_interpolation ← createBaseControl2
    { name := "smooth_interpolation", value_scale := some .kIndexed }
  let spectral_unison ← createBaseControl2
    { name := "spectral_unison", value_scale := some .kIndexed, default_value := some 1.0 }
  let stack_style ← createBaseControl2
    { name := "stack_style", max := some 10.0, value_scale := some .kIndexed }
  let transpose_quantize ← createBaseControl2
    { name := "transpose_quantize", max := some 8191.0, value_scale := some .kIndexed }
  let reset := ModuleInput.kReset
  let wave_frame ← createPolyModControl2 { name := "wave_frame", max := some 256 }
  let transpose ← createPolyModControl2
    { name := "transpose", audio_rate := true, reset := some reset, min := some (-48),
      max := some 48, value_scale := some .kIndexed }
  let tune ← createPolyModControl2
    { name := "tune", audio_rate := true, reset := some reset, max := some 1.0 }
  let unison_voices ← createPolyModControl2
    { name := "unison_voices", min := some 1.0, max := some 16.0,
      value_scale := some .kIndexed, default_value := some 1.0 }
  let unison_detune ← createPolyModControl2
    { name := "unison_detune", value_scale := some .kQuadratic,
      default_value := some 4.472135955 }
  let detune_power ← createPolyModControl2 { name := "detune_power" }
  let detune_range ← createPolyModControl2
    { name := "detune_range", max := some 48, default_value := some 2.0 }
  let amplitude ← createPolyModControl2
    { name := "amplitude", audio_rate := true, smooth_value := true, reset := some reset }
  let pan ← createPolyModControl2 { name := "pan", min := some (-1.0) }
  let phase ← createPolyModControl2
    { name := "phase", audio_rate := true, smooth_value := true, reset := some reset,
      default_value := some 0.5 }
  let distortion_phase ← createPolyModControl2
    { name := "distortion_phase", default_value := some 0.5 }
  let rand_phase ← createPolyModControl2 { name := "random_phase", default_value := some 1.0 }
  let blend ← createPolyModControl2 { name := "unison_blend", default_value := some 0.8 }
  let stereo_spread ← createPolyModControl2
    { name := "stereo_spread", default_value := some 1.0 }
  let frame_spread ← createPolyModControl2
    { name := "frame_spread", min := some (-128.0), max := some 128.0 }
  let distortion_spread ← createPolyModControl2
    { name := "distortion_spread", min := some (-0.5), max := some 0.5 }
  let distortion_type ← createBaseControl2
    { name := "distortion_type", max := some 12.0, value_scale := some .kIndexed }
  modify fun m => { m with distortion_type_ := some distortion_type }
  let distortion_amount ← createPolyModControl2
    { name := "distortion_amount", default_value := some 0.5 }
  let spectral_morph_spread ← createPolyModControl2
    { name := "spectral_morph_spread", min := some (-0.5), max := some 0.5 }
  let spectral_morph_type ← createBaseControl2
    { name := "spectral_morph_type", max := some 11.0, value_scale := some .kIndexed }
  let spectral_morph_amount ← createPolyModControl2
    { name := "spectral_morph_amount", default_value := some 0.5 }
  useInput oscillator_ .kReset (.osc .kReset)
  useInput oscillator_ .kRetrigger (.osc .kRetrigger)
  useInput oscillator_ .kActiveVoices (.osc .kActiveVoices)
  useInput oscillator_ .kMidi (.osc .kMidiNote)
  plug oscillator_ wave_frame (.osc .kWaveFrame)
  plug oscillator_ midi_track (.osc .kMidiTrack)
  plug oscillator_ smooth_interpolation (.osc .kSmoothlyInterpolate)
  plug oscillator_ spectral_unison (.osc .kSpectralUnison)
  plug oscillator_ transpose_quantize (.osc .kTransposeQuantize)
  plug oscillator_ transpose (.osc .kTranspose)
  plug oscillator_ tune (.osc .kTune)
  plug oscillator_ stack_style (.osc .kStackStyle)
  plug oscillator_ unison_detune (.osc .kUnisonDetune)
  plug oscillator_ unison_voices (.osc .kUnisonVoices)
  plug oscillator_ phase (.osc .kPhase)
  plug oscillator_ distortion_phase (.osc .kDistortionPhase)
  plug oscillator_ rand_phase (.osc .kRandomPhase)
  plug oscillator_ blend (.osc .kBlend)
  plug oscillator_ amplitude (.osc .kAmplitude)
  plug oscillator_ pan (.osc .kPan)
  plug oscillator_ detune_power (.osc .kDetunePower)
  plug oscillator_ detune_range (.osc .kDetuneRange)
  plug oscillator_ stereo_spread (.osc .kStereoSpread)
  plug oscillator_ frame_spread (.osc .kUnisonFrameSpread)
  plug oscillator_ distortion_spread (.osc .kUnisonDistortionSpread)
  plug oscillator_ distortion_type (.osc .kDistortionType)
  plug oscillator_ distortion_amount (.osc .kDistortionAmount)
  plug oscillator_ spectral_morph_spread (.osc .kUnisonSpectralMorphSpread)
  plug oscillator_ spectral_morph_type (.osc .kSpectralMorphType)
  plug oscillator_ spectral_morph_amount (.osc .kSpectralMorphAmount)
  -- the two `useOutput` calls that would bind `kRaw` and `kLevelled` to the
  -- oscillator are commented out in the source, so nothing is recorded here
  addProcessor oscillator_
  let envelope := Proc.EnvelopeModule
  addProcessor envelope
  let env := Proc.Multiply
  addProcessor env
  plug env (← defaultOutput envelope) (.index 0)
  plug env (← defaultOutput oscillator_) (.index 1)
  useOutput env .kRaw 0
  plug envelope (.inputSource .kRetrigger) .kTrigger
  SynthModule.init

/-- The module after `init()` on a freshly constructed module (the fresh
module itself should construction fail). -/
def built : SynthModule :=
  match init.run fresh with
  | .ok r => r.2
  | .error _ => fresh

end OscillatorModule

/-! ## Reading the built graph -/

/-- Names of the declared controls, in declaration order. -/
def controlNames (m : SynthModule) : List String :=
  m.controls.map fun c => c.2.name

/-- The declarations made through the given declaration function. -/
def controlsOfKind (m : SynthModule) (kind : ControlKind) : List ControlSpec :=
  (m.controls.filter fun c => c.1 == kind).map fun c => c.2

/-- The declaration of the control with the given name, if there is one. -/
def declared (m : SynthModule) (name : String) : Option ControlSpec :=
  (m.controls.find? fun c => c.2.name == name).map fun c => c.2

/-- The declaration uses indexed scaling. -/
def isIndexed (spec : ControlSpec) : Bool :=
  spec.value_scale == some ValueScale.kIndexed

/-- An option of a declaration, where written, is a whole number. -/
def givenIntegral (x : Option ℚ) : Bool :=
  match x with
  | some q => q.isInt
  | none => true

/-- Two options of a declaration, where both are written, are in order. -/
def givenLe (x y : Option ℚ) : Bool :=
  match x, y with
  | some a, some b => decide (a ≤ b)
  | _, _ => true

/-- The child that writes an output object, if a child does. -/
def producer (m : SynthModule) (o : Output) : Option Proc :=
  match o with
  | Output.own q _ => some q
  | Output.module k =>
    (m.usedOutputs.reverse.find? fun u => u.2.2 == k).map fun u => u.1
  | _ => none

/-- The children whose outputs child `p` reads through its plugged inputs. -/
def dependencies (m : SynthModule) (p : Proc) : List Proc :=
  (m.plugs.filter fun w => w.1 == p).filterMap fun w => producer m w.2.2

/-- The input slots of child `p` that have been plugged. -/
def pluggedSlots (m : SynthModule) (p : Proc) : List Slot :=
  (m.plugs.filter fun w => w.1 == p).map fun w => w.2.1

/-- Position of a child in the execution order. -/
def position (m : SynthModule) (p : Proc) : Nat :=
  m.processors.indexOf p

/-! ## Block execution -/

/-- What a probe placed on the module observes: a buffer clear on one of the
module outputs, or a `process(num_samples)` call on a child. -/
inductive Event where
  | clearBuffer (o : ModuleOutput)
  | process (p : Proc) (num_samples : Int)
  deriving DecidableEq, Repr

/-- Run-time state of one module instance: the flag `*was_on_`, the private
state of the children, the contents of every output buffer, and the probe. -/
structure State (σ α : Type) where
  was_on_ : Bool
  internal : σ
  buffers : Output → List α
  trace : List Event

/-- The signal processing of the children whose code lies outside the module
(`SynthOscillator`, `EnvelopeModule`), taken as a parameter: from the block
length, the private state and the current buffers it yields the new private
state and the new contents of the outputs. -/
structure Dsp (σ α : Type) where
  render : Proc → Int → σ → (Output → List α) → σ × (Output → List α)

/-- One block of host input: what `on_->value()` returns during the block and
the block length passed to `process`. -/
structure Block where
  on_value : ℚ
  num_samples : Int

/-- All samples of a buffer are zero. -/
def silent {α : Type} [Zero α] (b : List α) : Prop :=
  ∀ x ∈ b, x = 0

/-- Number of clears of module output `o` seen by the probe. -/
def clearCount (o : ModuleOutput) (t : List Event) : Nat :=
  t.count (Event.clearBuffer o)

/-- The child `process` calls seen by the probe, in order. -/
def childCalls (t : List Event) : List Event :=
  t.filter fun e =>
    match e with
    | Event.process _ _ => true
    | Event.clearBuffer _ => false

/-- The output objects that child `p` writes when it runs: the outputs
standing at its output slots. -/
def writes (m : SynthModule) (p : Proc) : Output → Bool
  | Output.own q i => q == p && outputOf m p i == Output.own p i
  | Output.module k => m.usedOutputs.any fun u => u.1 == p && outputOf m p u.2.1 == Output.module k
  | _ => false

/-- Modelled from the spec: `Output::clearBuffer` (section 4.3: outputs are
cleared to silence); every sample of the buffer becomes zero. -/
def clearBuffer {σ α : Type} [Zero α] (o : ModuleOutput) (s : State σ α) : State σ α :=
  { s with
    buffers := Function.update s.buffers (Output.module o)
      (List.replicate (s.buffers (Output.module o)).length 0)
    trace := s.trace ++ [Event.clearBuffer o] }

/-- Modelled from the spec: the `Multiply` combiner (section 4.5) writes the
per-sample product of its two operands into the first `n` samples of its
output buffer. -/
def Multiply.process {α : Type} [Zero α] [Mul α] (n : Nat) (a b out : List α) : List α :=
  (List.range out.length).map fun i =>
    if i < n then a.getD i 0 * b.getD i 0 else out.getD i 0

/-- The buffer read through input slot `slot` of child `p`; an unwired slot
reads nothing. -/
def readInput {α : Type} (m : SynthModule) (buffers : Output → List α) (p : Proc)
    (slot : Slot) : List α :=
  match sourceOf m p slot with
  | some o => buffers o
  | none => []

/-- Modelled from the spec: `process(num_samples)` of one child (section 2:
a processor reads its inputs, computes, writes its outputs). -/
def Processor.process {σ α : Type} [Zero α] [Mul α] (dsp : Dsp σ α) (m : SynthModule)
    (p : Proc) (num_samples : Int) (s : State σ α) : State σ α :=
  match p with
  | Proc.Multiply =>
    let out := outputOf m p 0
    { s with
      buffers := Function.update s.buffers out
        (Multiply.process num_samples.toNat (readInput m s.buffers p (Slot.index 0))
          (readInput m s.buffers p (Slot.index 1)) (s.buffers out))
      trace := s.trace ++ [Event.process p num_samples] }
  | _ =>
    let r := dsp.render p num_samples s.internal s.buffers
    { s with
      internal := r.1
      buffers := fun o => if writes m p o then r.2 o else s.buffers o
      trace := s.trace ++ [Event.process p num_samples] }

/-- Modelled from the spec: `SynthModule::process` (section 4.3) calls
`process(num_samples)` on every owned child in insertion order. -/
def SynthModule.process {σ α : Type} [Zero α] [Mul α] (dsp : Dsp σ α) (m : SynthModule)
    (num_samples : Int) (s : State σ α) : State σ α :=
  m.processors.foldl (fun st p => Processor.process dsp m p num_samples st) s

namespace OscillatorModule

/-- The constructor: `was_on_` starts out true. -/
def construct {σ α : Type} (internal : σ) (buffers : Output → List α) : State σ α :=
  { was_on_ := true, internal := internal, buffers := buffers, trace := [] }

/-- The gated block step `OscillatorModule::process`. -/
def process {σ α : Type} [Zero α] [Mul α] (dsp : Dsp σ α) (m : SynthModule)
    (on_value : ℚ) (num_samples : Int) (s : State σ α) : State σ α :=
  let is_on : Bool := decide (on_value ≠ 0)
  let s1 :=
    if is_on then
      SynthModule.process dsp m num_samples s
    else if s.was_on_ then
      clearBuffer ModuleOutput.kLevelled (clearBuffer ModuleOutput.kRaw s)
    else
      s
  { s1 with was_on_ := is_on }

/-- One host block applied to the module. -/
def step {σ α : Type} [Zero α] [Mul α] (dsp : Dsp σ α) (m : SynthModule)
    (s : State σ α) (b : Block) : State σ α :=
  process dsp m b.on_value b.num_samples s

/-- A sequence of host blocks applied in order. -/
def run {σ α : Type} [Zero α] [Mul α] (dsp : Dsp σ α) (m : SynthModule)
    (blocks : List Block) (s : State σ α) : State σ α :=
  blocks.foldl (step dsp m) s

end OscillatorModule

/-! ## A concrete instance -/

/-- A concrete child DSP over integer samples: the oscillator renders
`3, 5, 7, 9`, the envelope renders `2, 2, 2, 2`, and the private state counts
the calls. -/
def sampleDsp : Dsp Nat ℤ where
  render p _ calls _ :=
    (calls + 1, fun _ =>
      match p with
      | Proc.SynthOscillator => [3, 5, 7, 9]
      | Proc.EnvelopeModule => [2, 2, 2, 2]
      | Proc.Multiply => [])

/-- A freshly constructed module whose buffers all hold `7, 7, 7, 7`. -/
def sampleState : State Nat ℤ :=
  OscillatorModule.construct 0 fun _ => [7, 7, 7, 7]

/-- A block in which the `on` control reads one. -/
def blockOn : Block := { on_value := 1, num_samples := 4 }

/-- A block in which the `on` control reads zero. -/
def blockOff : Block := { on_value := 0, num_samples := 4 }

/-! ## Lemmas on the block step -/

theorem silent_replicate {α : Type} [Zero α] (n : Nat) :
    silent (List.replicate n (0 : α)) := by
  intro x hx
  exact (List.mem_replicate.mp hx).2

/-- What the two clears of the turn-off step leave behind. -/
theorem cleared_state {σ α : Type} [Zero α] (s : State σ α) :
    silent ((clearBuffer ModuleOutput.kLevelled
        (clearBuffer ModuleOutput.kRaw s)).buffers (Output.module ModuleOutput.kRaw))
      ∧ silent ((clearBuffer ModuleOutput.kLevelled
        (clearBuffer ModuleOutput.kRaw s)).buffers (Output.module ModuleOutput.kLevelled))
      ∧ (clearBuffer ModuleOutput.kLevelled (clearBuffer ModuleOutput.kRaw s)).trace
          = s.trace ++ [Event.clearBuffer ModuleOutput.kRaw,
              Event.clearBuffer ModuleOutput.kLevelled]
      ∧ (clearBuffer ModuleOutput.kLevelled (clearBuffer ModuleOutput.kRaw s)).internal
          = s.internal := by
  refine ⟨?_, ?_, ?_, rfl⟩
  · have hne : Output.module ModuleOutput.kRaw ≠ Output.module ModuleOutput.kLevelled := by
      decide
    simp only [clearBuffer, Function.update_noteq hne, Function.update_same]
    exact silent_replicate _
  · simp only [clearBuffer, Function.update_same]
    exact silent_replicate _
  · simp [clearBuffer]

section Lemmas

variable {σ α : Type} [Zero α] [Mul α]

theorem child_process_trace (dsp : Dsp σ α) (m : SynthModule) (p : Proc) (n : Int)
    (s : State σ α) :
    (Processor.process dsp m p n s).trace = s.trace ++ [Event.process p n] := by
  cases p <;> rfl

theorem child_process_was_on (dsp : Dsp σ α) (m : SynthModule) (p : Proc) (n : Int)
    (s : State σ α) :
    (Processor.process dsp m p n s).was_on_ = s.was_on_ := by
  cases p <;> rfl

theorem foldl_process_trace (dsp : Dsp σ α) (m : SynthModule) (n : Int) (ps : List Proc)
    (s : State σ α) :
    (ps.foldl (fun st p => Processor.process dsp m p n st) s).trace
      = s.trace ++ ps.map (fun p => Event.process p n) := by
  induction ps generalizing s with
  | nil => simp
  | cons p ps ih =>
    simp only [List.foldl_cons, List.map_cons]
    rw [ih, child_process_trace, List.append_assoc]
    rfl

theorem module_process_trace (dsp : Dsp σ α) (m : SynthModule) (n : Int)
    (s : State σ α) :
    (SynthModule.process dsp m n s).trace
      = s.trace ++ m.processors.map (fun p => Event.process p n) :=
  foldl_process_trace dsp m n m.processors s

/-- The step taken when the control reads non-zero. -/
theorem OscillatorModule.process_on (dsp : Dsp σ α) (m : SynthModule) (v : ℚ) (n : Int)
    (s : State σ α) (hv : v ≠ 0) :
    OscillatorModule.process dsp m v n s
      = { SynthModule.process dsp m n s with was_on_ := true } := by
  simp [OscillatorModule.process, hv]

/-- The step taken on the first block in which the control reads zero. -/
theorem OscillatorModule.process_turn_off (dsp : Dsp σ α) (m : SynthModule) (n : Int)
    (s : State σ α) (hs : s.was_on_ = true) :
    OscillatorModule.process dsp m 0 n s
      = { clearBuffer ModuleOutput.kLevelled (clearBuffer ModuleOutput.kRaw s) with
          was_on_ := false } := by
  simp [OscillatorModule.process, hs]

/-- The step taken on a later block in which the control still reads zero. -/
theorem OscillatorModule.process_idle (dsp : Dsp σ α) (m : SynthModule) (n : Int)
    (s : State σ α) (hs : s.was_on_ = false) :
    OscillatorModule.process dsp m 0 n s = s := by
  cases s
  simp_all [OscillatorModule.process]

/-- Blocks that all read zero leave an idle module as it is. -/
theorem OscillatorModule.run_idle (dsp : Dsp σ α) (m : SynthModule) (offs : List Block)
    (s : State σ α) (hs : s.was_on_ = false) (hoff : ∀ b ∈ offs, b.on_value = 0) :
    OscillatorModule.run dsp m offs s = s := by
  induction offs with
  | nil => rfl
  | cons b bs ih =>
    have hb : b.on_value = 0 := hoff b (List.mem_cons_self _ _)
    have hstep : OscillatorModule.step dsp m s b = s := by
      unfold OscillatorModule.step
      rw [hb]
      exact OscillatorModule.process_idle dsp m _ s hs
    simp only [OscillatorModule.run, List.foldl_cons, hstep]
    exact ih (fun b hb => hoff b (List.mem_cons_of_mem _ hb))

/-- A non-empty run of blocks that all read zero, started with `was_on_` set,
is the turn-off step alone. -/
theorem OscillatorModule.run_off (dsp : Dsp σ α) (m : SynthModule) (b : Block)
    (offs : List Block) (s : State σ α) (hs : s.was_on_ = true)
    (hoff : ∀ c ∈ b :: offs, c.on_value = 0) :
    OscillatorModule.run dsp m (b :: offs) s
      = { clearBuffer ModuleOutput.kLevelled (clearBuffer ModuleOutput.kRaw s) with
          was_on_ := false } := by
  have hb : b.on_value = 0 := hoff b (List.mem_cons_self _ _)
  have hstep : OscillatorModule.step dsp m s b
      = { clearBuffer ModuleOutput.kLevelled (clearBuffer ModuleOutput.kRaw s) with
          was_on_ := false } := by
    unfold OscillatorModule.step
    rw [hb]
    exact OscillatorModule.process_turn_off dsp m _ s hs
  simp only [OscillatorModule.run, List.foldl_cons, hstep]
  exact OscillatorModule.run_idle dsp m offs _ rfl
    (fun c hc => hoff c (List.mem_cons_of_mem _ hc))

/-- A prefix of at least one block of a run of blocks that all read zero,
started with `was_on_` set, is the turn-off step alone. -/
theorem OscillatorModule.run_take_off (dsp : Dsp σ α) (m : SynthModule) (offs : List Block)
    (s : State σ α) (j : Nat) (hs : s.was_on_ = true) (hk : 1 ≤ offs.length) (hj : 1 ≤ j)
    (hoff : ∀ b ∈ offs, b.on_value = 0) :
    OscillatorModule.run dsp m (offs.take j) s
      = { clearBuffer ModuleOutput.kLevelled (clearBuffer ModuleOutput.kRaw s) with
          was_on_ := false } := by
  cases offs with
  | nil => simp at hk
  | cons b bs =>
    cases j with
    | zero => omega
    | succ i =>
      rw [List.take_succ_cons]
      refine OscillatorModule.run_off dsp m b (bs.take i) s hs ?_
      intro c hc
      rcases List.mem_cons.mp hc with h | h
      · exact hoff c (h ▸ List.mem_cons_self _ _)
      · exact hoff c (List.mem_cons_of_mem _ (List.mem_of_mem_take h))

end Lemmas

/-! ## The graph built by `init` -/

theorem built_processors :
    OscillatorModule.built.processors
      = [Proc.SynthOscillator, Proc.EnvelopeModule, Proc.Multiply] := rfl

theorem built_usedOutputs :
    OscillatorModule.built.usedOutputs = [(Proc.Multiply, 0, ModuleOutput.kRaw)] := rfl

theorem built_outputOf (p : Proc) (i : Nat) :
    outputOf OscillatorModule.built p i
      = if p = Proc.Multiply ∧ i = 0 then Output.module ModuleOutput.kRaw
        else Output.own p i := by
  unfold outputOf
  rw [built_usedOutputs]
  cases p <;> cases i <;> rfl

theorem built_source_zero :
    sourceOf OscillatorModule.built Proc.Multiply (Slot.index 0)
      = some (Output.own Proc.EnvelopeModule 0) := rfl

theorem built_source_one :
    sourceOf OscillatorModule.built Proc.Multiply (Slot.index 1)
      = some (Output.own Proc.SynthOscillator 0) := rfl

/-- C8: the insertion order of the graph built by `init` is a topological
order: the execution order is oscillator, envelope, multiply; every child
comes strictly after every child whose output it reads; the multiply reads
the envelope and the oscillator, and the oscillator and the envelope read the
output of no child at all. -/
theorem C8_insertion_order_topological :
    OscillatorModule.built.processors
        = [Proc.SynthOscillator, Proc.EnvelopeModule, Proc.Multiply]
      ∧ (∀ p ∈ OscillatorModule.built.processors,
          ∀ q ∈ dependencies OscillatorModule.built p,
            position OscillatorModule.built q < position OscillatorModule.built p)
      ∧ dependencies OscillatorModule.built Proc.Multiply
          = [Proc.EnvelopeModule, Proc.SynthOscillator]
      ∧ dependencies OscillatorModule.built Proc.SynthOscillator = []
      ∧ dependencies OscillatorModule.built Proc.EnvelopeModule = [] := by
  decide

/-- C9: the four discrete selectors fed to the oscillator (`unison_voices`,
`distortion_type`, `spectral_morph_type`, `stack_style`) are declared with
indexed scaling and plugged into the matching oscillator slots; every written
`min`, `max` and `default_value` of every indexed control is a whole number,
with `min <= default_value <= max` wherever they are written; and
`unison_voices` is declared with `min = 1`, `max = 16`, `default_value = 1`. -/
theorem C9_discrete_selectors_declared_indexed :
    (∀ w ∈ [("unison_voices", OscInput.kUnisonVoices),
            ("distortion_type", OscInput.kDistortionType),
            ("spectral_morph_type", OscInput.kSpectralMorphType),
            ("stack_style", OscInput.kStackStyle)],
        sourceOf OscillatorModule.built Proc.SynthOscillator (Slot.osc w.2)
            = some (Output.control w.1)
          ∧ (declared OscillatorModule.built w.1).any isIndexed = true)
      ∧ (∀ c ∈ OscillatorModule.built.controls, isIndexed c.2 = true →
          givenIntegral c.2.min = true ∧ givenIntegral c.2.max = true
            ∧ givenIntegral c.2.default_value = true
            ∧ givenLe c.2.min c.2.default_value = true
            ∧ givenLe c.2.default_value c.2.max = true
            ∧ givenLe c.2.min c.2.max = true)
      ∧ (declared OscillatorModule.built "unison_voices").any
          (fun spec => spec.min == some 1 && spec.max == some 16
            && spec.default_value == some 1) = true := by
  decide!

/-! ## The gate: `OscillatorModule::process` -/

section Gate

variable {σ α : Type} [Zero α] [Mul α]

/-- C1: the ON to OFF step.  In every module state with `was_on_` true, a
`process` call in which the `on` control reads zero (any block length) clears
the `kRaw` buffer and then the `kLevelled` buffer, leaving both silent, calls
no child (the probe records the two clears and nothing else, and the private
state of the children is untouched) and leaves `was_on_` false. -/
theorem C1_on_to_off_step (dsp : Dsp σ α) (m : SynthModule) (v : ℚ) (n : Int)
    (s : State σ α) (hs : s.was_on_ = true) (hv : v = 0) :
    (OscillatorModule.process dsp m v n s).trace
        = s.trace ++ [Event.clearBuffer ModuleOutput.kRaw,
            Event.clearBuffer ModuleOutput.kLevelled]
      ∧ silent ((OscillatorModule.process dsp m v n s).buffers
          (Output.module ModuleOutput.kRaw))
      ∧ silent ((OscillatorModule.process dsp m v n s).buffers
          (Output.module ModuleOutput.kLevelled))
      ∧ childCalls (OscillatorModule.process dsp m v n s).trace = childCalls s.trace
      ∧ (OscillatorModule.process dsp m v n s).internal = s.internal
      ∧ (OscillatorModule.process dsp m v n s).was_on_ = false := by
  subst hv
  rw [OscillatorModule.process_turn_off dsp m n s hs]
  obtain ⟨h1, h2, h3, h4⟩ := cleared_state s
  refine ⟨h3, h1, h2, ?_, h4, rfl⟩
  show childCalls (clearBuffer ModuleOutput.kLevelled
    (clearBuffer ModuleOutput.kRaw s)).trace = childCalls s.trace
  rw [h3]
  simp [childCalls]

/-- C1 at a concrete input: a freshly constructed module, built graph,
control reading zero, block of four samples. -/
theorem C1_on_to_off_step_witness :
    sampleState.was_on_ = true ∧ (0 : ℚ) = 0
      ∧ (OscillatorModule.process sampleDsp OscillatorModule.built 0 4 sampleState).trace
          = [Event.clearBuffer ModuleOutput.kRaw, Event.clearBuffer ModuleOutput.kLevelled]
      ∧ (OscillatorModule.process sampleDsp OscillatorModule.built 0 4 sampleState).was_on_
          = false :=
  ⟨rfl, rfl,
    (C1_on_to_off_step sampleDsp OscillatorModule.built 0 4 sampleState rfl rfl).1,
    (C1_on_to_off_step sampleDsp OscillatorModule.built 0 4 sampleState rfl rfl).2.2.2.2.2⟩

/-- C2: no repeated clearing.  After a block in which `on` reads non-zero,
let `k >= 1` blocks follow in which `on` reads zero.  After the first of them,
and after every longer prefix of them, the probe has recorded exactly the
clear of `kRaw` and the clear of `kLevelled` and nothing else, and the state
is the one reached after the first; so each output is cleared exactly once
over the `k` blocks.  A block with `was_on_` false and `on` zero changes
nothing at all: no clear, no child call, same buffers, same `was_on_`. -/
theorem C2_no_repeated_clearing (dsp : Dsp σ α) (m : SynthModule) (s : State σ α)
    (bOn : Block) (offs : List Block) (hon : bOn.on_value ≠ 0)
    (hk : 1 ≤ offs.length) (hoff : ∀ b ∈ offs, b.on_value = 0) :
    (∀ j, 1 ≤ j →
        (OscillatorModule.run dsp m (offs.take j) (OscillatorModule.step dsp m s bOn)).trace
            = (OscillatorModule.step dsp m s bOn).trace
                ++ [Event.clearBuffer ModuleOutput.kRaw,
                    Event.clearBuffer ModuleOutput.kLevelled]
          ∧ OscillatorModule.run dsp m (offs.take j) (OscillatorModule.step dsp m s bOn)
              = OscillatorModule.run dsp m (offs.take 1) (OscillatorModule.step dsp m s bOn))
      ∧ (∀ o,
          clearCount o
              (OscillatorModule.run dsp m offs (OscillatorModule.step dsp m s bOn)).trace
            = clearCount o (OscillatorModule.step dsp m s bOn).trace + 1)
      ∧ childCalls
            (OscillatorModule.run dsp m offs (OscillatorModule.step dsp m s bOn)).trace
          = childCalls (OscillatorModule.step dsp m s bOn).trace
      ∧ (∀ (t : State σ α) (b : Block), t.was_on_ = false → b.on_value = 0 →
          OscillatorModule.step dsp m t b = t) := by
  have hs1 : (OscillatorModule.step dsp m s bOn).was_on_ = true := by
    unfold OscillatorModule.step
    rw [OscillatorModule.process_on dsp m _ _ s hon]
  have htake := fun j hj =>
    OscillatorModule.run_take_off dsp m offs (OscillatorModule.step dsp m s bOn) j hs1 hk hj hoff
  have hall : OscillatorModule.run dsp m offs (OscillatorModule.step dsp m s bOn)
      = { clearBuffer ModuleOutput.kLevelled
            (clearBuffer ModuleOutput.kRaw (OscillatorModule.step dsp m s bOn)) with
          was_on_ := false } := by
    have h := htake offs.length hk
    rwa [List.take_length] at h
  have htr := (cleared_state (OscillatorModule.step dsp m s bOn)).2.2.1
  refine ⟨?_, ?_, ?_, ?_⟩
  · intro j hj
    rw [htake j hj, htake 1 (le_refl 1)]
    exact ⟨htr, rfl⟩
  · intro o
    rw [hall]
    show clearCount o (clearBuffer ModuleOutput.kLevelled
      (clearBuffer ModuleOutput.kRaw (OscillatorModule.step dsp m s bOn))).trace = _
    rw [htr]
    cases o <;> simp [clearCount, List.count_cons]
  · rw [hall]
    show childCalls (clearBuffer ModuleOutput.kLevelled
      (clearBuffer ModuleOutput.kRaw (OscillatorModule.step dsp m s bOn))).trace = _
    rw [htr]
    simp [childCalls]
  · intro t b ht hb
    unfold OscillatorModule.step
    rw [hb]
    exact OscillatorModule.process_idle dsp m _ t ht

/-- C2 at a concrete input: one ON block and then three OFF blocks on the
built graph; `kRaw` has been cleared once at the end. -/
theorem C2_no_repeated_clearing_witness :
    blockOn.on_value ≠ 0 ∧ 1 ≤ [blockOff, blockOff, blockOff].length
      ∧ (∀ b ∈ [blockOff, blockOff, blockOff], b.on_value = 0)
      ∧ clearCount ModuleOutput.kRaw
          (OscillatorModule.run sampleDsp OscillatorModule.built
            [blockOff, blockOff, blockOff]
            (OscillatorModule.step sampleDsp OscillatorModule.built sampleState blockOn)).trace
        = clearCount ModuleOutput.kRaw
          (OscillatorModule.step sampleDsp OscillatorModule.built sampleState blockOn).trace
          + 1 :=
  ⟨by decide, by decide, by decide,
    (C2_no_repeated_clearing sampleDsp OscillatorModule.built sampleState blockOn
      [blockOff, blockOff, blockOff] (by decide) (by decide) (by decide)).2.1
        ModuleOutput.kRaw⟩

/-- C3: gate silence.  After a block in which `on` reads non-zero, let
`k >= 1` blocks follow in which `on` reads zero.  At the end of the first of
them and at the end of every later one, the `kRaw` buffer and the `kLevelled`
buffer are all zero. -/
theorem C3_gate_silence (dsp : Dsp σ α) (m : SynthModule) (s : State σ α)
    (bOn : Block) (offs : List Block) (hon : bOn.on_value ≠ 0)
    (hk : 1 ≤ offs.length) (hoff : ∀ b ∈ offs, b.on_value = 0) :
    ∀ j, 1 ≤ j → j ≤ offs.length →
      silent ((OscillatorModule.run dsp m (offs.take j)
          (OscillatorModule.step dsp m s bOn)).buffers (Output.module ModuleOutput.kRaw))
        ∧ silent ((OscillatorModule.run dsp m (offs.take j)
          (OscillatorModule.step dsp m s bOn)).buffers
            (Output.module ModuleOutput.kLevelled)) := by
  intro j hj _
  have hs1 : (OscillatorModule.step dsp m s bOn).was_on_ = true := by
    unfold OscillatorModule.step
    rw [OscillatorModule.process_on dsp m _ _ s hon]
  rw [OscillatorModule.run_take_off dsp m offs _ j hs1 hk hj hoff]
  exact ⟨(cleared_state _).1, (cleared_state _).2.1⟩

/-- C3 at a concrete input: one ON block and then two OFF blocks on the built
graph; both buffers are silent after the second OFF block. -/
theorem C3_gate_silence_witness :
    blockOn.on_value ≠ 0 ∧ 1 ≤ [blockOff, blockOff].length
      ∧ (∀ b ∈ [blockOff, blockOff], b.on_value = 0)
      ∧ silent ((OscillatorModule.run sampleDsp OscillatorModule.built
          ([blockOff, blockOff].take 2)
          (OscillatorModule.step sampleDsp OscillatorModule.built sampleState
            blockOn)).buffers (Output.module ModuleOutput.kRaw))
      ∧ silent ((OscillatorModule.run sampleDsp OscillatorModule.built
          ([blockOff, blockOff].take 2)
          (OscillatorModule.step sampleDsp OscillatorModule.built sampleState
            blockOn)).buffers (Output.module ModuleOutput.kLevelled)) :=
  ⟨by decide, by decide, by decide,
    C3_gate_silence sampleDsp OscillatorModule.built sampleState blockOn
      [blockOff, blockOff] (by decide) (by decide) (by decide) 2 (by decide) (by decide)⟩

/-- C4: the step into ON.  In every module state, with `was_on_` true or
false, a `process` call on the built graph in which `on` reads non-zero calls
`process` with the same block length exactly once on the oscillator, then on
the envelope, then on the multiply, records no clear of any output, and leaves
`was_on_` true. -/
theorem C4_any_to_on_step (dsp : Dsp σ α) (v : ℚ) (n : Int) (s : State σ α) (hv : v ≠ 0) :
    (OscillatorModule.process dsp OscillatorModule.built v n s).trace
        = s.trace ++ [Event.process Proc.SynthOscillator n,
            Event.process Proc.EnvelopeModule n, Event.process Proc.Multiply n]
      ∧ (∀ o, clearCount o (OscillatorModule.process dsp OscillatorModule.built v n s).trace
          = clearCount o s.trace)
      ∧ (OscillatorModule.process dsp OscillatorModule.built v n s).was_on_ = true := by
  rw [OscillatorModule.process_on dsp _ v n s hv]
  have htr : (SynthModule.process dsp OscillatorModule.built n s).trace
      = s.trace ++ [Event.process Proc.SynthOscillator n,
          Event.process Proc.EnvelopeModule n, Event.process Proc.Multiply n] := by
    rw [module_process_trace, built_processors]
    rfl
  refine ⟨htr, ?_, rfl⟩
  intro o
  show clearCount o (SynthModule.process dsp OscillatorModule.built n s).trace = _
  rw [htr]
  simp [clearCount, List.count_cons]

/-- C4 at a concrete input: the first block of a freshly constructed module,
with `on` reading one. -/
theorem C4_any_to_on_step_witness :
    (1 : ℚ) ≠ 0
      ∧ (OscillatorModule.process sampleDsp OscillatorModule.built 1 4 sampleState).trace
          = [Event.process Proc.SynthOscillator 4, Event.process Proc.EnvelopeModule 4,
              Event.process Proc.Multiply 4] :=
  ⟨one_ne_zero,
    (C4_any_to_on_step sampleDsp 1 4 sampleState one_ne_zero).1⟩

end Gate

/-! ## Data flow through the built graph -/

theorem Multiply.process_length {α : Type} [Zero α] [Mul α] (n : Nat) (a b out : List α) :
    (Multiply.process n a b out).length = out.length := by
  simp [Multiply.process]

theorem Multiply.process_getD {α : Type} [Zero α] [Mul α] (n : Nat) (a b out : List α)
    (i : Nat) (hn : i < n) (hlen : i < out.length) :
    (Multiply.process n a b out).getD i 0 = a.getD i 0 * b.getD i 0 := by
  have hi : i < (Multiply.process n a b out).length := by
    rw [Multiply.process_length]
    exact hlen
  rw [List.getD_eq_getElem _ _ hi]
  simp [Multiply.process, hn]

theorem Multiply.process_comm {α : Type} [Zero α] [CommMagma α] (n : Nat)
    (a b out : List α) :
    Multiply.process n a b out = Multiply.process n b a out := by
  simp only [Multiply.process, mul_comm]

theorem built_writes_module (p : Proc) (k : ModuleOutput) (hp : p ≠ Proc.Multiply) :
    writes OscillatorModule.built p (Output.module k) = false := by
  cases p <;> cases k <;> first | rfl | exact absurd rfl hp

theorem built_writes_levelled (p : Proc) :
    writes OscillatorModule.built p (Output.module ModuleOutput.kLevelled) = false := by
  cases p <;> rfl

/-- The buffers after the three children of the built graph have run: `kRaw`
holds what the multiply computed from the envelope output and the oscillator
output of this block, and `kLevelled` is as it was. -/
theorem built_process_buffers {σ α : Type} [Zero α] [Mul α] (dsp : Dsp σ α) (n : Int)
    (s : State σ α) :
    (SynthModule.process dsp OscillatorModule.built n s).buffers
          (Output.module ModuleOutput.kRaw)
        = Multiply.process n.toNat
            ((SynthModule.process dsp OscillatorModule.built n s).buffers
              (Output.own Proc.EnvelopeModule 0))
            ((SynthModule.process dsp OscillatorModule.built n s).buffers
              (Output.own Proc.SynthOscillator 0))
            (s.buffers (Output.module ModuleOutput.kRaw))
      ∧ (SynthModule.process dsp OscillatorModule.built n s).buffers
          (Output.module ModuleOutput.kLevelled)
        = s.buffers (Output.module ModuleOutput.kLevelled) := by
  have hout : outputOf OscillatorModule.built Proc.Multiply 0
      = Output.module ModuleOutput.kRaw := rfl
  have h1 : Output.own Proc.EnvelopeModule 0 ≠ Output.module ModuleOutput.kRaw := by decide
  have h2 : Output.own Proc.SynthOscillator 0 ≠ Output.module ModuleOutput.kRaw := by decide
  have h3 : Output.module ModuleOutput.kLevelled ≠ Output.module ModuleOutput.kRaw := by
    decide
  have w1 := built_writes_module Proc.SynthOscillator ModuleOutput.kRaw (by decide)
  have w2 := built_writes_module Proc.EnvelopeModule ModuleOutput.kRaw (by decide)
  have w3 := built_writes_levelled Proc.SynthOscillator
  have w4 := built_writes_levelled Proc.EnvelopeModule
  simp only [SynthModule.process, built_processors, List.foldl, Processor.process, readInput,
    built_source_zero, built_source_one, hout, Function.update_same,
    Function.update_noteq h1, Function.update_noteq h2, Function.update_noteq h3,
    w1, w2, w3, w4]
  simp

/-- C5 as stated fails: it is not the case that each module output is the
output of some owned child, since nothing stands behind `kLevelled`; and in a
concrete ON block, where the children render `3, 5, 7, 9` and `2, 2, 2, 2`,
`kLevelled` still holds the `7, 7, 7, 7` it held before the block. -/
theorem C5_counterexample_levelled_unbound :
    ¬ (∀ o : ModuleOutput, ∃ p ∈ OscillatorModule.built.processors, ∃ i,
          outputOf OscillatorModule.built p i = Output.module o)
      ∧ (OscillatorModule.process sampleDsp OscillatorModule.built 1 4 sampleState).buffers
          (Output.module ModuleOutput.kLevelled) = [7, 7, 7, 7] := by
  constructor
  · intro h
    obtain ⟨p, _, i, hpi⟩ := h ModuleOutput.kLevelled
    rw [built_outputOf] at hpi
    split at hpi <;> simp at hpi
  · rw [OscillatorModule.process_on sampleDsp _ 1 4 sampleState one_ne_zero]
    exact (built_process_buffers sampleDsp 4 sampleState).2

/-- C5, amended: after `init()` the module output `kRaw` is output 0 of the
owned multiply child, and no output of any child is the module output
`kLevelled`; so after every ON block `kRaw` holds what the multiply wrote in
that block from the envelope and oscillator outputs of that block, while
`kLevelled` holds what it held before the block. -/
theorem C5_raw_bound_levelled_unbound {σ α : Type} [Zero α] [Mul α] (dsp : Dsp σ α)
    (v : ℚ) (n : Int) (s : State σ α) (hv : v ≠ 0) :
    Proc.Multiply ∈ OscillatorModule.built.processors
      ∧ outputOf OscillatorModule.built Proc.Multiply 0 = Output.module ModuleOutput.kRaw
      ∧ (∀ p i, outputOf OscillatorModule.built p i ≠ Output.module ModuleOutput.kLevelled)
      ∧ (∀ p, writes OscillatorModule.built p (Output.module ModuleOutput.kLevelled) = false)
      ∧ (OscillatorModule.process dsp OscillatorModule.built v n s).buffers
            (Output.module ModuleOutput.kRaw)
          = Multiply.process n.toNat
              ((OscillatorModule.process dsp OscillatorModule.built v n s).buffers
                (Output.own Proc.EnvelopeModule 0))
              ((OscillatorModule.process dsp OscillatorModule.built v n s).buffers
                (Output.own Proc.SynthOscillator 0))
              (s.buffers (Output.module ModuleOutput.kRaw))
      ∧ (OscillatorModule.process dsp OscillatorModule.built v n s).buffers
            (Output.module ModuleOutput.kLevelled)
          = s.buffers (Output.module ModuleOutput.kLevelled) := by
  refine ⟨by decide, rfl, ?_, built_writes_levelled, ?_⟩
  · intro p i hpi
    rw [built_outputOf] at hpi
    split at hpi <;> simp at hpi
  · rw [OscillatorModule.process_on dsp _ v n s hv]
    exact built_process_buffers dsp n s

/-- C5 (amended) at a concrete input: one ON block of four samples on a
freshly constructed module. -/
theorem C5_raw_bound_levelled_unbound_witness :
    (1 : ℚ) ≠ 0
      ∧ (OscillatorModule.process sampleDsp OscillatorModule.built 1 4 sampleState).buffers
            (Output.module ModuleOutput.kRaw)
          = Multiply.process 4
              ((OscillatorModule.process sampleDsp OscillatorModule.built 1 4
                sampleState).buffers (Output.own Proc.EnvelopeModule 0))
              ((OscillatorModule.process sampleDsp OscillatorModule.built 1 4
                sampleState).buffers (Output.own Proc.SynthOscillator 0))
              [7, 7, 7, 7] :=
  ⟨one_ne_zero,
    (C5_raw_bound_levelled_unbound sampleDsp 1 4 sampleState one_ne_zero).2.2.2.2.1⟩

/-- C6: envelope times oscillator.  In the graph built by `init` the multiply
has exactly two plugged input slots, slot 0 reading output 0 of the envelope
and slot 1 reading output 0 (the default output) of the oscillator, and its
output 0 is the module output `kRaw`.  Hence after every ON block of `n`
samples, for every `i < n` within the buffer, sample `i` of the module output
is sample `i` of the envelope output times sample `i` of the oscillator
output; and the multiply gives the same buffer with its operands swapped. -/
theorem C6_envelope_times_oscillator {σ α : Type} [Zero α] [CommMagma α] (dsp : Dsp σ α)
    (v : ℚ) (n : Int) (s : State σ α) (hv : v ≠ 0) :
    pluggedSlots OscillatorModule.built Proc.Multiply = [Slot.index 0, Slot.index 1]
      ∧ sourceOf OscillatorModule.built Proc.Multiply (Slot.index 0)
          = some (outputOf OscillatorModule.built Proc.EnvelopeModule 0)
      ∧ sourceOf OscillatorModule.built Proc.Multiply (Slot.index 1)
          = some (outputOf OscillatorModule.built Proc.SynthOscillator 0)
      ∧ outputOf OscillatorModule.built Proc.EnvelopeModule 0
          = Output.own Proc.EnvelopeModule 0
      ∧ outputOf OscillatorModule.built Proc.SynthOscillator 0
          = Output.own Proc.SynthOscillator 0
      ∧ outputOf OscillatorModule.built Proc.Multiply 0 = Output.module ModuleOutput.kRaw
      ∧ (∀ i : Nat, (i : Int) < n → i < (s.buffers (Output.module ModuleOutput.kRaw)).length →
          ((OscillatorModule.process dsp OscillatorModule.built v n s).buffers
              (Output.module ModuleOutput.kRaw)).getD i 0
            = ((OscillatorModule.process dsp OscillatorModule.built v n s).buffers
                (Output.own Proc.EnvelopeModule 0)).getD i 0
              * ((OscillatorModule.process dsp OscillatorModule.built v n s).buffers
                (Output.own Proc.SynthOscillator 0)).getD i 0)
      ∧ (∀ a b out : List α,
          Multiply.process n.toNat a b out = Multiply.process n.toNat b a out) := by
  refine ⟨by decide, rfl, rfl, rfl, rfl, rfl, ?_, fun a b out => Multiply.process_comm _ a b out⟩
  intro i hi hlen
  rw [OscillatorModule.process_on dsp _ v n s hv]
  show ((SynthModule.process dsp OscillatorModule.built n s).buffers
    (Output.module ModuleOutput.kRaw)).getD i 0 = _
  rw [(built_process_buffers dsp n s).1]
  exact Multiply.process_getD _ _ _ _ i (by omega) hlen

/-- C6 at a concrete input: one ON block of four samples; sample 1 of the
module output is `2 * 5`. -/
theorem C6_envelope_times_oscillator_witness :
    (1 : ℚ) ≠ 0 ∧ ((1 : Nat) : Int) < 4
      ∧ 1 < (sampleState.buffers (Output.module ModuleOutput.kRaw)).length
      ∧ ((OscillatorModule.process sampleDsp OscillatorModule.built 1 4 sampleState).buffers
            (Output.module ModuleOutput.kRaw)).getD 1 0
          = ((OscillatorModule.process sampleDsp OscillatorModule.built 1 4
                sampleState).buffers (Output.own Proc.EnvelopeModule 0)).getD 1 0
            * ((OscillatorModule.process sampleDsp OscillatorModule.built 1 4
                sampleState).buffers (Output.own Proc.SynthOscillator 0)).getD 1 0 :=
  ⟨one_ne_zero, by decide, by decide,
    (C6_envelope_times_oscillator sampleDsp 1 4 sampleState one_ne_zero).2.2.2.2.2.2.1 1
      (by decide) (by decide)⟩

/-! ## Control names -/

/-- C7: unique control names.  `init()` on a fresh module completes without
a construction error and declares 28 controls: 7 base controls before the
`reset` input is taken and 21 controls after it (the poly-mod controls, with
the 2 further base controls `distortion_type` and `spectral_morph_type` among
them, so 7+2 base controls in all).  The 28 names are pairwise distinct, and
the registry does fail on a repeated name: declaring `on` once more on the
built module is the duplicate-name error. -/
theorem C7_control_names_unique :
    OscillatorModule.init.run OscillatorModule.fresh
        = Except.ok ((), OscillatorModule.built)
      ∧ (controlNames OscillatorModule.built).length = 28
      ∧ (controlNames OscillatorModule.built).Nodup
      ∧ (OscillatorModule.built.controls.take 7).all (fun c => c.1 == ControlKind.base) = true
      ∧ (OscillatorModule.built.controls.drop 7).length = 21
      ∧ ((OscillatorModule.built.controls.drop 7).filter
          fun c => c.1 == ControlKind.base).map (fun c => c.2.name)
          = ["distortion_type", "spectral_morph_type"]
      ∧ (controlsOfKind OscillatorModule.built ControlKind.base).length = 7 + 2
      ∧ (controlsOfKind OscillatorModule.built ControlKind.polyMod).length = 19
      ∧ (createBaseControl2 { name := "on" }).run OscillatorModule.built
          = Except.error (ConfigurationError.DuplicateNameError "on") := by
  refine ⟨?_, ?_, ?_, ?_, ?_, ?_, ?_, ?_, ?_⟩
  · have hok : (OscillatorModule.init.run OscillatorModule.fresh).toBool = true := by decide
    unfold OscillatorModule.built
    cases h : OscillatorModule.init.run OscillatorModule.fresh with
    | ok r => rfl
    | error e =>
      rw [h] at hok
      cases hok
  · decide
  · decide
  · decide
  · decide
  · decide
  · decide
  · decide
  · rfl

end vital
